import Mathlib

/-!
Verification development for the `grail-agent` sanctioned-autonomy control
plane.  The Python sources (`overlord_metaplanner.py`, `overlord_approver.py`,
`overlord_executor.py`, `overlord_verifier.py`, `overlord_controller.py`,
`overlord_feedback_loop.py`) are shallowly embedded below:

* wall-clock instants (`datetime.now()`) become an explicit `now : Int`
  argument, measured in seconds;
* numeric metric values (Python ints/floats used only in comparisons and
  percentage arithmetic) become `Rat`;
* Python dicts (insertion ordered) become association lists
  `List (String × _)`;
* methods that mutate `self` become functions returning the updated value;
* exceptions become `Option`;
* file persistence, logging and random id generation carry no information
  used by any proved property and are not modelled.
-/

namespace GrailAgent

/-! ## overlord_metaplanner.py -/

/-- `ChangePlanScope` enum: the area a proposed change touches. -/
inductive ChangePlanScope
  | PARAMETER
  | LOGIC
  | ARCHITECTURE
deriving DecidableEq

/-- The `.value` string of a `ChangePlanScope` member. -/
def ChangePlanScope.value : ChangePlanScope → String
  | .PARAMETER => "parameter"
  | .LOGIC => "logic"
  | .ARCHITECTURE => "architecture"

/-- `ChangePlanRisk` enum: risk classification of a plan. -/
inductive ChangePlanRisk
  | SAFE
  | REVIEW
  | FORBIDDEN
deriving DecidableEq

/-- The `.value` string of a `ChangePlanRisk` member. -/
def ChangePlanRisk.value : ChangePlanRisk → String
  | .SAFE => "safe"
  | .REVIEW => "review"
  | .FORBIDDEN => "forbidden"

/-- `ChangePlan._classify_risk`: risk derived from scope alone. -/
def classifyRisk : ChangePlanScope → ChangePlanRisk
  | .PARAMETER => ChangePlanRisk.SAFE
  | .LOGIC => ChangePlanRisk.REVIEW
  | .ARCHITECTURE => ChangePlanRisk.FORBIDDEN

/-- The fields of `ChangePlan` that the claims exercise.  `created_at`
(a `datetime`) is an integer timestamp.  The free-text fields
(`justification`, `expected_gain`, …) that no claim reads are dropped. -/
structure ChangePlan where
  id : String
  createdAt : Int
  description : String
  scope : ChangePlanScope
  affectedParameters : List String
  status : String := "proposed"
deriving DecidableEq

/-- `ChangePlan.__init__` stores `self.risk_level = self._classify_risk(scope)`
and nothing in the repository ever reassigns `risk_level`, so the risk level
of a plan is modelled as this derived field. -/
def ChangePlan.riskLevel (p : ChangePlan) : ChangePlanRisk :=
  classifyRisk p.scope

/-! ## overlord_approver.py -/

/-- `ApprovedChangePlan._calculate_checksum` hashes the string
`f"{id}|{description}|{scope.value}|{affected_parameters}|{created_at.isoformat()}"`
with SHA-256.  The hash plus Python's per-field formatting (`repr` for the
list, ISO format for the datetime) is modelled as a collision-free fingerprint
of exactly the covered fields. -/
structure PlanChecksum where
  planId : String
  description : String
  scopeValue : String
  affectedParameters : List String
  createdAt : Int
deriving DecidableEq

/-- `ApprovedChangePlan._calculate_checksum(plan)`. -/
def calculateChecksum (p : ChangePlan) : PlanChecksum :=
  { planId := p.id
    description := p.description
    scopeValue := p.scope.value
    affectedParameters := p.affectedParameters
    createdAt := p.createdAt }

/-- `ApprovedChangePlan`: an approval record wrapping one plan. -/
structure ApprovedChangePlan where
  planId : String
  plan : ChangePlan
  approvedBy : String
  approvedAt : Int
  expiresAt : Int
  approvalReason : String
  checksum : PlanChecksum
  status : String
  appliedAt : Option Int := none
deriving DecidableEq

/-- `ApprovedChangePlan.__init__`: raises `ValueError` (here: `none`) unless
the plan's risk level is `"safe"` and its scope is `"parameter"`; otherwise
stores the approval metadata, a TTL deadline of `ttl_hours` hours from `now`,
and the checksum of the plan at approval time. -/
def mkApprovedChangePlan (plan : ChangePlan) (approvedBy approvalReason : String)
    (now : Int) (ttlHours : Int) : Option ApprovedChangePlan :=
  if plan.riskLevel.value ≠ "safe" then
    none
  else if plan.scope.value ≠ "parameter" then
    none
  else
    some { planId := plan.id
           plan := plan
           approvedBy := approvedBy
           approvedAt := now
           expiresAt := now + ttlHours * 3600
           approvalReason := approvalReason
           checksum := calculateChecksum plan
           status := "approved" }

/-- `PlanApprover.approve`: constructs an `ApprovedChangePlan`, returning
`None` when the constructor raises. -/
def PlanApprover.approve (plan : ChangePlan) (approvedBy reason : String)
    (now : Int) (ttlHours : Int) : Option ApprovedChangePlan :=
  mkApprovedChangePlan plan approvedBy reason now ttlHours

/-- The `status` field of the dict returned by `PlanApprover.request_approval`:
`"rejected"` for any plan whose risk level is not `"safe"`, else `"pending"`
(the persistence-failure `"error"` path is not modelled). -/
def PlanApprover.requestApproval (plan : ChangePlan) : String :=
  if plan.riskLevel.value ≠ "safe" then "rejected" else "pending"

/-- `ApprovedChangePlan.is_valid`: returns the boolean result together with
the (possibly updated) record — the source mutates `self.status` to
`"expired"` when the TTL has lapsed. -/
def ApprovedChangePlan.isValid (a : ApprovedChangePlan) (now : Int) :
    Bool × ApprovedChangePlan :=
  if a.status ≠ "approved" then
    (false, a)
  else if a.expiresAt < now then
    (false, { a with status := "expired" })
  else
    (true, a)

/-- `ApprovedChangePlan.verify_integrity`: recompute the checksum of the
current plan fields and compare with the stored one. -/
def ApprovedChangePlan.verifyIntegrity (a : ApprovedChangePlan) : Bool :=
  calculateChecksum a.plan = a.checksum

/-- `ApprovedChangePlan.mark_applied`. -/
def ApprovedChangePlan.markApplied (a : ApprovedChangePlan) (now : Int) :
    ApprovedChangePlan :=
  { a with status := "applied", appliedAt := some now }

/-! ## overlord_executor.py -/

/-- Python runtime types distinguished by `ParameterWhitelist` specs. -/
inductive PyType
  | tint
  | tfloat
deriving DecidableEq

/-- A parameter value: `isinstance` checks distinguish `int` from `float`,
while range comparison is plain numeric comparison. -/
inductive PyVal
  | pint (n : Int)
  | pfloat (q : Rat)
deriving DecidableEq

/-- The runtime type of a value, as seen by `isinstance`. -/
def PyVal.typeOf : PyVal → PyType
  | .pint _ => PyType.tint
  | .pfloat _ => PyType.tfloat

/-- The numeric magnitude of a value, for `min`/`max` comparisons. -/
def PyVal.toRat : PyVal → Rat
  | .pint n => (n : Rat)
  | .pfloat q => q

/-- A whitelist entry: expected type and inclusive `[min, max]` range
(the free-text `description` is dropped). -/
structure ParamSpec where
  type : PyType
  min : Rat
  max : Rat
deriving DecidableEq

/-- `ParameterWhitelist.ALLOWED_PARAMETERS`. -/
def allowedParameters : List (String × ParamSpec) :=
  [("confidence_threshold", ⟨PyType.tfloat, 6/10, 9/10⟩),
   ("max_predictions", ⟨PyType.tint, 5, 200⟩),
   ("ttl_short", ⟨PyType.tint, 1800, 3600⟩),
   ("ttl_medium", ⟨PyType.tint, 3600, 7200⟩),
   ("ttl_long", ⟨PyType.tint, 7200, 14400⟩),
   ("api_retry_count", ⟨PyType.tint, 1, 5⟩),
   ("api_timeout_ms", ⟨PyType.tint, 5000, 30000⟩),
   ("ui_fallback_threshold", ⟨PyType.tint, 3, 10⟩)]

/-- `ParameterWhitelist.get_spec`. -/
def getSpec (name : String) : Option ParamSpec :=
  allowedParameters.lookup name

/-- `ConfigValidator.validate`: `none` means valid, `some msg` the error
message (`is_allowed` and the `get_spec` lookup coincide on this table, as in
the source where `ALLOWED_PARAMETERS` backs both checks; both `min` and `max`
keys are always present). -/
def ConfigValidator.validate (name : String) (value : PyVal) : Option String :=
  match getSpec name with
  | none => some ("Parameter not in whitelist")
  | some spec =>
    if value.typeOf ≠ spec.type then some "Type mismatch"
    else if value.toRat < spec.min then some "Value below minimum"
    else if spec.max < value.toRat then some "Value above maximum"
    else none

/-- The `errors` list built by the loop of `ConfigValidator.validate_batch`:
one message per invalid entry. -/
def ConfigValidator.batchErrors (parameters : List (String × PyVal)) :
    List String :=
  parameters.filterMap fun p =>
    (ConfigValidator.validate p.1 p.2).map fun e => p.1 ++ ": " ++ e

/-- `ConfigValidator.validate_batch`: all-valid iff the error list is empty. -/
def ConfigValidator.validateBatch (parameters : List (String × PyVal)) :
    Bool × List String :=
  ((ConfigValidator.batchErrors parameters).length = 0,
    ConfigValidator.batchErrors parameters)

/-- One record of the config's `modifications` history (timestamp and backup
path strings are not modelled). -/
structure Modification where
  planId : String
  approvedBy : String
  changes : List (String × PyVal)
  oldValues : List (String × Option PyVal)
  description : String
deriving DecidableEq

/-- The persisted JSON configuration file: its `parameters` mapping and
`modifications` history. -/
structure Config where
  parameters : List (String × PyVal)
  modifications : List Modification
deriving DecidableEq

/-- Python dict assignment `d[k] = v`: replace in place, else append. -/
def dictSet (l : List (String × PyVal)) (k : String) (v : PyVal) :
    List (String × PyVal) :=
  match l with
  | [] => [(k, v)]
  | (k', v') :: rest =>
    if k' = k then (k, v) :: rest else (k', v') :: dictSet rest k v

/-- `SafeExecutor._extract_parameters`: keyword-matching stub mapping a plan
description to concrete parameter changes. -/
def extractParameters (plan : ChangePlan) : List (String × PyVal) :=
  let d := plan.description.toLower
  if (d.splitOn "confidence").length ≠ 1 then
    [("confidence_threshold", PyVal.pfloat (3/4))]
  else if (d.splitOn "retry").length ≠ 1 then
    [("api_retry_count", PyVal.pint 5)]
  else if (d.splitOn "ttl").length ≠ 1 then
    [("ttl_medium", PyVal.pint 4500)]
  else
    []

/-- Result of `SafeExecutor.apply`: the `(success, error)` pair of the source
together with the configuration file and approval record as left behind. -/
structure ApplyResult where
  success : Bool
  error : Option String
  config : Config
  approved : ApprovedChangePlan
deriving DecidableEq

/-- The tail of `SafeExecutor.apply`, from the "no parameters" check on: the
batch is validated in full before any write; only if every entry passes are
the parameters folded into the config, a modification record appended and the
approval marked applied.  (The backup copy and the exception-rollback path
concern the filesystem only; in this pure model the config is returned
unchanged on every failing branch.) -/
def SafeExecutor.applyParams (approved : ApprovedChangePlan)
    (parametersToChange : List (String × PyVal)) (config : Config) (now : Int) :
    ApplyResult :=
  if parametersToChange.isEmpty then
    { success := false, error := some "No parameters found in plan"
      config := config, approved := approved }
  else if !(ConfigValidator.validateBatch parametersToChange).1 then
    { success := false
      error := some ("Validation failed: " ++ String.intercalate "; "
        (ConfigValidator.validateBatch parametersToChange).2)
      config := config, approved := approved }
    else
      let oldValues := parametersToChange.map fun p =>
        (p.1, config.parameters.lookup p.1)
      let newParams := parametersToChange.foldl
        (fun ps p => dictSet ps p.1 p.2) config.parameters
      let m : Modification :=
        { planId := approved.planId
          approvedBy := approved.approvedBy
          changes := parametersToChange
          oldValues := oldValues
          description := approved.plan.description }
      { success := true
        error := none
        config := { parameters := newParams
                    modifications := config.modifications ++ [m] }
        approved := approved.markApplied now }

/-- `SafeExecutor.apply`: the four fail-closed validations (approval validity,
integrity, scope, risk), then parameter extraction and the batch application
modelled by `SafeExecutor.applyParams`. -/
def SafeExecutor.apply (approvedPlan : ApprovedChangePlan) (config : Config)
    (now : Int) : ApplyResult :=
  let v := approvedPlan.isValid now
  if !v.1 then
    { success := false, error := some ("Approval not valid: " ++ v.2.status)
      config := config, approved := v.2 }
  else if !v.2.verifyIntegrity then
    { success := false
      error := some "Integrity check failed: plan was modified after approval"
      config := config, approved := v.2 }
  else if v.2.plan.scope.value ≠ "parameter" then
    { success := false, error := some "Invalid scope"
      config := config, approved := v.2 }
  else if v.2.plan.riskLevel.value ≠ "safe" then
    { success := false, error := some "Invalid risk"
      config := config, approved := v.2 }
  else
    SafeExecutor.applyParams v.2 (extractParameters v.2.plan) config now

/-! ## overlord_verifier.py -/

/-- The `(is_valid, gain_percentage)` part of `ExpectedGainValidator.validate`
(the human-readable `reasoning` string is not modelled). -/
structure GainValidation where
  isValid : Bool
  gainPercentage : Rat
deriving DecidableEq

/-- Per-metric contribution collected into the `gains` list of
`ExpectedGainValidator.validate`: a metric missing from the actual results is
only recorded as an issue; a positive delta contributes
`delta / expected * 100` (or `100.0` when `expected == 0`); a zero delta
contributes `0.0`; a negative delta is only logged, contributing nothing. -/
def gainContribution (actualMetrics : List (String × Rat)) (p : String × Rat) :
    Option Rat :=
  match actualMetrics.lookup p.1 with
  | none => none
  | some actual =>
    let delta := actual - p.2
    if 0 < delta then
      some (if p.2 ≠ 0 then delta / p.2 * 100 else 100)
    else if delta = 0 then
      some 0
    else
      none

/-- `ExpectedGainValidator.validate`. -/
def ExpectedGainValidator.validate (expectedGain actualMetrics : List (String × Rat)) :
    GainValidation :=
  if expectedGain.isEmpty || actualMetrics.isEmpty then
    { isValid := false, gainPercentage := 0 }
  else
    let gains := expectedGain.filterMap (gainContribution actualMetrics)
    if gains.isEmpty then
      { isValid := false, gainPercentage := 0 }
    else
      let avgGain := gains.sum / (gains.length : Rat)
      let hasPositive := gains.any fun g => decide (0 < g)
      { isValid := hasPositive && decide (0 ≤ avgGain), gainPercentage := avgGain }

/-- One entry of the drift report's per-metric table. -/
structure DriftEntry where
  metric : String
  baseline : Rat
  current : Rat
  driftPct : Rat
deriving DecidableEq

/-- `DriftDetector`'s `drift_report` (the warning strings are not modelled;
`criticalDrifts` and `drifts` are the two lists the classification builds). -/
structure DriftReport where
  hasDrift : Bool
  driftLevel : String
  metrics : List DriftEntry
  criticalDrifts : List DriftEntry
  drifts : List DriftEntry
deriving DecidableEq

/-- Absolute percentage change of `current` against `baseline`, with the
source's zero-baseline convention. -/
def driftPct (baseline current : Rat) : Rat :=
  if baseline = 0 then
    if current ≠ 0 then 100 else 0
  else
    |(current - baseline) / baseline * 100|

/-- `DriftDetector.detect_drift` with tolerance `tolerancePercent`: returns
`(has_drift, drift_report)`. -/
def DriftDetector.detectDrift (tolerancePercent : Rat)
    (baselineMetrics currentMetrics : List (String × Rat)) : Bool × DriftReport :=
  if baselineMetrics.isEmpty || currentMetrics.isEmpty then
    (false, { hasDrift := false, driftLevel := "none"
              metrics := [], criticalDrifts := [], drifts := [] })
  else
    let entries := baselineMetrics.filterMap fun p =>
      (currentMetrics.lookup p.1).map fun c =>
        ({ metric := p.1, baseline := p.2, current := c
           driftPct := driftPct p.2 c } : DriftEntry)
    let criticalDrifts := entries.filter fun e => decide (20 < e.driftPct)
    let drifts := entries.filter fun e =>
      decide (¬ 20 < e.driftPct) && decide (tolerancePercent < e.driftPct)
    if !criticalDrifts.isEmpty then
      (true, { hasDrift := true, driftLevel := "critical"
               metrics := entries, criticalDrifts := criticalDrifts, drifts := drifts })
    else if !drifts.isEmpty then
      (true, { hasDrift := true, driftLevel := "significant"
               metrics := entries, criticalDrifts := criticalDrifts, drifts := drifts })
    else
      (false, { hasDrift := false, driftLevel := "none"
                metrics := entries, criticalDrifts := criticalDrifts, drifts := drifts })

/-- The fields of the `verification` dict that the claims and the feedback
loop read (timestamps, file paths and the `recommendations` strings are not
modelled). -/
structure Verification where
  planId : String
  status : String
  integrityCheck : Bool
  gainValidation : Option GainValidation
  driftDetection : Option DriftReport
  rollbackRecommended : Bool
  rollbackJustification : Option String
  actualMetrics : List (String × Rat)
  preChangeBaseline : List (String × Rat)
  postChangeBaseline : List (String × Rat)
deriving DecidableEq

/-- `ExecutionVerifier.verify_execution`.  The verifier is constructed with
`DriftDetector(tolerance_percent=5.0)`.  The source reads the expected-gain
mapping off `approved_plan.plan.expected_gain`; it is taken here as the
argument `expectedGain`. -/
def ExecutionVerifier.verifyExecution (approvedPlan : ApprovedChangePlan)
    (expectedGain : List (String × Rat))
    (preChangeBaseline postChangeBaseline executionMetrics : List (String × Rat)) :
    Verification :=
  if !approvedPlan.verifyIntegrity then
    { planId := approvedPlan.planId
      status := "failed"
      integrityCheck := false
      gainValidation := none
      driftDetection := none
      rollbackRecommended := true
      rollbackJustification := some "Plan integrity compromised"
      actualMetrics := executionMetrics
      preChangeBaseline := preChangeBaseline
      postChangeBaseline := postChangeBaseline }
  else
    let gv := ExpectedGainValidator.validate expectedGain executionMetrics
    let negative := !gv.isValid && decide (gv.gainPercentage < 0)
    let status :=
      if negative then "negative"
      else if 5 < gv.gainPercentage then "success"
      else if 0 < gv.gainPercentage then "partial"
      else "no_effect"
    let dd := DriftDetector.detectDrift 5 preChangeBaseline postChangeBaseline
    let critical := dd.2.driftLevel = "critical"
    { planId := approvedPlan.planId
      status := status
      integrityCheck := true
      gainValidation := some gv
      driftDetection := some dd.2
      rollbackRecommended := negative || decide critical
      rollbackJustification :=
        if critical then some "Critical drift in metrics"
        else if negative then some "Negative gain"
        else none
      actualMetrics := executionMetrics
      preChangeBaseline := preChangeBaseline
      postChangeBaseline := postChangeBaseline }

/-! ## overlord_sentinel.py / overlord_controller.py -/

/-- `RiskAttractor` enum. -/
inductive RiskAttractor
  | API_SCORE_DROP
  | HIGH_UI_FALLBACK
  | DEMO_ONLY_MODE
  | SMOKE_FAILURES
  | RUNTIME_SPIKE
  | CACHE_MISS_RATE
  | SUPABASE_DOWN
  | ML_LOAD_SLOW
  | PLAYWRIGHT_INIT_FAIL
deriving DecidableEq

/-- `RiskLevel` enum. -/
inductive RiskLevel
  | LOW
  | MEDIUM
  | HIGH
deriving DecidableEq

/-- A risk signal as emitted by `RiskSentinel.check_risks` (the
`recommendation` string is not modelled). -/
structure RiskSignal where
  attractor : RiskAttractor
  level : RiskLevel
  message : String
deriving DecidableEq

/-- `ControlSignalType` enum. -/
inductive ControlSignalType
  | READ_ONLY
  | LOG_ONLY
  | SOFT_LIMIT
  | EXECUTION_GUARD
  | HARD_LIMIT
  | MODE_DOWNGRADE
  | EARLY_EXIT
deriving DecidableEq

/-- `ControlSignal` (the random `id` is not modelled). -/
structure ControlSignal where
  signalType : ControlSignalType
  attractor : RiskAttractor
  reason : String
  action : String
  createdAt : Int
  expiresAt : Int
  reversible : Bool := true
  active : Bool := true
deriving DecidableEq

/-- `ControlSignal.is_expired`. -/
def ControlSignal.isExpired (s : ControlSignal) (now : Int) : Bool :=
  s.expiresAt < now

/-- `ControlSignal.is_active`. -/
def ControlSignal.isActive (s : ControlSignal) (now : Int) : Bool :=
  s.active && !s.isExpired now

/-- The body of the `for risk in risk_signals` loop of
`OverlordController._generate_control_signals`: the control signal appended
for one risk signal, or `none` when the branch structure appends nothing
(HIGH or MEDIUM severity on an attractor with no matching case). -/
def controlSignalFor (now : Int) (risk : RiskSignal) : Option ControlSignal :=
  match risk.level with
  | RiskLevel.HIGH =>
    match risk.attractor with
    | RiskAttractor.DEMO_ONLY_MODE =>
      some { signalType := ControlSignalType.HARD_LIMIT, attractor := risk.attractor
             reason := risk.message, action := "Force demo mode, block live trading"
             createdAt := now, expiresAt := now + 7200 }
    | RiskAttractor.SUPABASE_DOWN =>
      some { signalType := ControlSignalType.SOFT_LIMIT, attractor := risk.attractor
             reason := risk.message, action := "Continue without Supabase logging"
             createdAt := now, expiresAt := now + 1800 }
    | RiskAttractor.PLAYWRIGHT_INIT_FAIL =>
      some { signalType := ControlSignalType.MODE_DOWNGRADE, attractor := risk.attractor
             reason := risk.message, action := "Disable UI fallback, API-only mode"
             createdAt := now, expiresAt := now + 3600 }
    | _ => none
  | RiskLevel.MEDIUM =>
    match risk.attractor with
    | RiskAttractor.API_SCORE_DROP =>
      some { signalType := ControlSignalType.EXECUTION_GUARD, attractor := risk.attractor
             reason := risk.message, action := "Verify API health before operations"
             createdAt := now, expiresAt := now + 1800 }
    | RiskAttractor.HIGH_UI_FALLBACK =>
      some { signalType := ControlSignalType.SOFT_LIMIT, attractor := risk.attractor
             reason := risk.message, action := "Log excessive UI usage"
             createdAt := now, expiresAt := now + 3600 }
    | RiskAttractor.RUNTIME_SPIKE =>
      some { signalType := ControlSignalType.EARLY_EXIT, attractor := risk.attractor
             reason := risk.message, action := "Reduce prediction count to 5"
             createdAt := now, expiresAt := now + 3600 }
    | _ => none
  | RiskLevel.LOW =>
    some { signalType := ControlSignalType.LOG_ONLY, attractor := risk.attractor
           reason := risk.message, action := "Monitor only"
           createdAt := now, expiresAt := now + 1800 }

/-- `OverlordController._generate_control_signals`. -/
def generateControlSignals (now : Int) (riskSignals : List RiskSignal) :
    List ControlSignal :=
  riskSignals.filterMap (controlSignalFor now)

/-- `ExecutionControls`: the derived operational flags consulted by the
external agent. -/
structure ExecutionControls where
  forceDemoMode : Bool := false
  blockLiveMode : Bool := false
  disableUiFallback : Bool := false
  confidenceThreshold : Rat := 7/10
  maxPredictions : Option Int := none
  skipMlInference : Bool := false
  disableSupabase : Bool := false
  ciEarlyExit : Bool := false
  ciExitReason : Option String := none
deriving DecidableEq

/-- `ExecutionControls.apply_signal`. -/
def ExecutionControls.applySignal (ec : ExecutionControls) (s : ControlSignal)
    (now : Int) : ExecutionControls :=
  if !s.isActive now then
    ec
  else if s.signalType = ControlSignalType.HARD_LIMIT then
    if s.attractor = RiskAttractor.DEMO_ONLY_MODE then
      { ec with forceDemoMode := true, blockLiveMode := true }
    else ec
  else if s.signalType = ControlSignalType.MODE_DOWNGRADE then
    if s.attractor = RiskAttractor.PLAYWRIGHT_INIT_FAIL then
      { ec with disableUiFallback := true }
    else ec
  else if s.signalType = ControlSignalType.EARLY_EXIT then
    if s.attractor = RiskAttractor.RUNTIME_SPIKE then
      { ec with ciEarlyExit := true
                ciExitReason := some "Runtime exceeded baseline threshold"
                maxPredictions :=
                  match ec.maxPredictions with
                  | none => some 5
                  | some m => if 5 < m then some 5 else some m }
    else ec
  else
    ec

/-- The controller state mutated by `evaluate_and_apply`: the active-signal
list, the controls snapshot, and the decision log (modelled by its `action`
tags, which is all `_analyze_control_signal_patterns` consumes). -/
structure ControllerState where
  activeSignals : List ControlSignal
  executionControls : ExecutionControls
  decisionLog : List String
deriving DecidableEq

/-- `OverlordController.__init__` state. -/
def ControllerState.init : ControllerState :=
  { activeSignals := [], executionControls := {}, decisionLog := [] }

/-- `OverlordController._find_signal`. -/
def findSignal (signals : List ControlSignal) (attractor : RiskAttractor)
    (signalType : ControlSignalType) : Option ControlSignal :=
  signals.find? fun s =>
    decide (s.attractor = attractor) && decide (s.signalType = signalType)

/-- Mutating the signal object `_find_signal` returned: update the expiry of
the first list entry with the given attractor and type. -/
def extendFirst (signals : List ControlSignal) (attractor : RiskAttractor)
    (signalType : ControlSignalType) (newExpiry : Int) : List ControlSignal :=
  match signals with
  | [] => []
  | s :: rest =>
    if s.attractor = attractor ∧ s.signalType = signalType then
      { s with expiresAt := newExpiry } :: rest
    else
      s :: extendFirst rest attractor signalType newExpiry

/-- One iteration of the loop in `OverlordController._apply_signals`. -/
def applyOneSignal (now : Int) (st : ControllerState) (s : ControlSignal) :
    ControllerState :=
  match findSignal st.activeSignals s.attractor s.signalType with
  | some existing =>
    if existing.isActive now then
      { st with activeSignals :=
          extendFirst st.activeSignals s.attractor s.signalType s.expiresAt }
    else
      { activeSignals := st.activeSignals ++ [s]
        executionControls := st.executionControls.applySignal s now
        decisionLog := st.decisionLog ++ ["signal_activated"] }
  | none =>
    { activeSignals := st.activeSignals ++ [s]
      executionControls := st.executionControls.applySignal s now
      decisionLog := st.decisionLog ++ ["signal_activated"] }

/-- `OverlordController._apply_signals`. -/
def applySignals (st : ControllerState) (newSignals : List ControlSignal)
    (now : Int) : ControllerState :=
  newSignals.foldl (applyOneSignal now) st

/-- `OverlordController._cleanup_expired_signals`. -/
def cleanupExpiredSignals (st : ControllerState) (now : Int) : ControllerState :=
  let expired := st.activeSignals.filter fun s => s.isExpired now
  { st with
    activeSignals := st.activeSignals.filter fun s => !s.isExpired now
    decisionLog := st.decisionLog ++ expired.map fun _ => "signal_expired" }

/-- `OverlordController.evaluate_and_apply`: risk check → signal generation →
application → expiry cleanup (the decision logging step only writes to the
logger).  The risk signals produced by `sentinel.check_risks` are taken as
the argument `riskSignals`. -/
def evaluateAndApply (st : ControllerState) (now : Int)
    (riskSignals : List RiskSignal) : ControllerState :=
  let newSignals := generateControlSignals now riskSignals
  let st := applySignals st newSignals now
  cleanupExpiredSignals st now

/-! ## overlord_feedback_loop.py -/

/-- `PlanOutcome` enum. -/
inductive PlanOutcome
  | SUCCESS
  | PARTIAL_SUCCESS
  | NO_EFFECT
  | NEGATIVE_EFFECT
  | VERIFICATION_FAILED
  | ROLLED_BACK
deriving DecidableEq

/-- `CycleOrchestrator._determine_outcome`. -/
def determineOutcome (status : String) (rollbackRecommended : Bool) : PlanOutcome :=
  if rollbackRecommended then PlanOutcome.NEGATIVE_EFFECT
  else if status = "success" then PlanOutcome.SUCCESS
  else if status = "partial" then PlanOutcome.PARTIAL_SUCCESS
  else if status = "no_effect" then PlanOutcome.NO_EFFECT
  else if status = "negative" then PlanOutcome.NEGATIVE_EFFECT
  else if status = "failed" then PlanOutcome.VERIFICATION_FAILED
  else PlanOutcome.VERIFICATION_FAILED

/-- `BaselineCollector.record_metric`: set one key of the current session
mapping. -/
def recordMetric (session : List (String × Rat)) (name : String) (value : Rat) :
    List (String × Rat) :=
  match session with
  | [] => [(name, value)]
  | (k, v) :: rest =>
    if k = name then (name, value) :: rest else (k, v) :: recordMetric rest name value

/-- `BaselineEnricher.enrich_baseline`: returns the boolean result and the
baseline collector's session mapping as left behind.  Rolled-back plans are
skipped first; only SUCCESS / PARTIAL_SUCCESS outcomes record the post-change
baseline metrics into the collector; NO_EFFECT and the remaining outcomes
record nothing. -/
def BaselineEnricher.enrichBaseline (outcome : PlanOutcome)
    (postChangeBaseline : List (String × Rat)) (collector : List (String × Rat)) :
    Bool × List (String × Rat) :=
  if outcome = PlanOutcome.ROLLED_BACK then
    (false, collector)
  else if outcome = PlanOutcome.SUCCESS ∨ outcome = PlanOutcome.PARTIAL_SUCCESS then
    (true, postChangeBaseline.foldl (fun c p => recordMetric c p.1 p.2) collector)
  else if outcome = PlanOutcome.NO_EFFECT then
    (false, collector)
  else
    (false, collector)

/-- Result of `CycleOrchestrator.process_cycle`: the derived outcome, whether
the baseline was enriched, and the collector as left behind. -/
structure CycleResult where
  outcome : PlanOutcome
  enriched : Bool
  collector : List (String × Rat)
deriving DecidableEq

/-- `CycleOrchestrator.process_cycle`: derive the outcome from the
verification's status and rollback flag, then enrich the baseline from the
verification's post-change baseline when the outcome allows it. -/
def CycleOrchestrator.processCycle (verification : Verification)
    (collector : List (String × Rat)) : CycleResult :=
  let outcome := determineOutcome verification.status verification.rollbackRecommended
  let e := BaselineEnricher.enrichBaseline outcome verification.postChangeBaseline collector
  { outcome := outcome, enriched := e.1, collector := e.2 }

/-! ## Concrete sample data used by the witness theorems -/

/-- A concrete PARAMETER-scope plan. -/
def samplePlan : ChangePlan :=
  { id := "plan_1700000000_1234"
    createdAt := 1700000000
    description := "Increase confidence threshold"
    scope := ChangePlanScope.PARAMETER
    affectedParameters := ["confidence_threshold"] }

/-- A concrete LOGIC-scope plan. -/
def sampleLogicPlan : ChangePlan :=
  { id := "plan_1700000000_5678"
    createdAt := 1700000000
    description := "Rework fallback guard conditions"
    scope := ChangePlanScope.LOGIC
    affectedParameters := [] }

/-- A concrete approval of `samplePlan` with a 48-hour TTL taken at time 0. -/
def sampleApproved : ApprovedChangePlan :=
  { planId := samplePlan.id
    plan := samplePlan
    approvedBy := "alice"
    approvedAt := 0
    expiresAt := 172800
    approvalReason := "metrics support it"
    checksum := calculateChecksum samplePlan
    status := "approved" }

/-! ## C1 -/

/-- Helper: `ApprovedChangePlan.__init__` raises whenever the risk level is
not the string `"safe"`. -/
theorem mkApproved_none_of_risk_ne_safe (p : ChangePlan)
    (h : p.riskLevel.value ≠ "safe") (approver reason : String) (now ttl : Int) :
    mkApprovedChangePlan p approver reason now ttl = none := by
  unfold mkApprovedChangePlan
  rw [if_pos h]

/-- C1: risk tier is the pure scope table (PARAMETER ↦ SAFE, LOGIC ↦ REVIEW,
ARCHITECTURE ↦ FORBIDDEN); for every plan whose scope is not PARAMETER the
tier is never SAFE, `PlanApprover.approve` returns none, and
`PlanApprover.request_approval` reports status "rejected". -/
theorem nonparameter_plans_never_approved_c1 (scope : ChangePlanScope)
    (h : scope ≠ ChangePlanScope.PARAMETER) :
    classifyRisk ChangePlanScope.PARAMETER = ChangePlanRisk.SAFE ∧
    classifyRisk ChangePlanScope.LOGIC = ChangePlanRisk.REVIEW ∧
    classifyRisk ChangePlanScope.ARCHITECTURE = ChangePlanRisk.FORBIDDEN ∧
    classifyRisk scope ≠ ChangePlanRisk.SAFE ∧
    ∀ p : ChangePlan, p.scope = scope →
      (∀ approver reason : String, ∀ now ttlHours : Int,
        PlanApprover.approve p approver reason now ttlHours = none) ∧
      PlanApprover.requestApproval p = "rejected" := by
  refine ⟨rfl, rfl, rfl, ?_, ?_⟩
  · cases scope with
    | PARAMETER => exact absurd rfl h
    | LOGIC => decide
    | ARCHITECTURE => decide
  · intro p hp
    have hrisk : p.riskLevel.value ≠ "safe" := by
      rw [ChangePlan.riskLevel, hp]
      cases scope with
      | PARAMETER => exact absurd rfl h
      | LOGIC => decide
      | ARCHITECTURE => decide
    constructor
    · intro approver reason now ttlHours
      exact mkApproved_none_of_risk_ne_safe p hrisk approver reason now ttlHours
    · unfold PlanApprover.requestApproval
      rw [if_pos hrisk]

/-- C1 witness: the LOGIC sample plan is classified REVIEW and both approval
routes fail on it. -/
theorem nonparameter_plans_never_approved_c1_witness :
    classifyRisk sampleLogicPlan.scope ≠ ChangePlanRisk.SAFE ∧
    PlanApprover.approve sampleLogicPlan "alice" "looks right" 0 48 = none ∧
    PlanApprover.requestApproval sampleLogicPlan = "rejected" := by
  have h := nonparameter_plans_never_approved_c1 ChangePlanScope.LOGIC (by decide)
  have h2 := h.2.2.2.2 sampleLogicPlan rfl
  exact ⟨h.2.2.2.1, h2.1 "alice" "looks right" 0 48, h2.2⟩

/-! ## C2 -/

/-- C2: `is_valid` is true exactly while the status is "approved" and `now`
is at or before `expires_at`; past the deadline the call returns false and,
as a side effect, moves the status to "expired". -/
theorem is_valid_lazy_expiry_c2 (a : ApprovedChangePlan) (now : Int) :
    ((a.isValid now).1 = true ↔ a.status = "approved" ∧ now ≤ a.expiresAt) ∧
    (a.status = "approved" → a.expiresAt < now →
      (a.isValid now).1 = false ∧ ((a.isValid now).2).status = "expired") := by
  unfold ApprovedChangePlan.isValid
  by_cases h1 : a.status = "approved"
  · by_cases h2 : a.expiresAt < now
    · simp [h1, h2]
    · simp [h1, h2]
      omega
  · simp [h1]

/-- C2 witness: the sample approval is valid at time 1000 and, at time
200000 (past the 172800-second deadline), invalid with status "expired". -/
theorem is_valid_lazy_expiry_c2_witness :
    (sampleApproved.isValid 1000).1 = true ∧
    (sampleApproved.isValid 200000).1 = false ∧
    ((sampleApproved.isValid 200000).2).status = "expired" := by
  have hearly := (is_valid_lazy_expiry_c2 sampleApproved 1000).1.mpr ⟨rfl, by decide⟩
  have hlate := (is_valid_lazy_expiry_c2 sampleApproved 200000).2 rfl (by decide)
  exact ⟨hearly, hlate.1, hlate.2⟩

/-! ## C3 -/

/-- Helper: the `.value` string determines the scope. -/
theorem ChangePlanScope.value_injective (s t : ChangePlanScope)
    (h : s.value = t.value) : s = t := by
  cases s <;> cases t <;> first | rfl | exact absurd h (by decide)

/-- C3: `verify_integrity` is true iff the checksum recomputed from the
current plan fields matches the stored one, and mutating any covered field
(id, description, scope, affected parameters, created-at) of a plan whose
stored checksum matched makes `verify_integrity` false. -/
theorem verify_integrity_detects_mutation_c3 (a : ApprovedChangePlan)
    (h : calculateChecksum a.plan = a.checksum) :
    (∀ b : ApprovedChangePlan,
      b.verifyIntegrity = true ↔ calculateChecksum b.plan = b.checksum) ∧
    (∀ i, i ≠ a.plan.id →
      ({ a with plan := { a.plan with id := i } } : ApprovedChangePlan).verifyIntegrity
        = false) ∧
    (∀ d, d ≠ a.plan.description →
      ({ a with plan := { a.plan with description := d } } : ApprovedChangePlan).verifyIntegrity
        = false) ∧
    (∀ s, s ≠ a.plan.scope →
      ({ a with plan := { a.plan with scope := s } } : ApprovedChangePlan).verifyIntegrity
        = false) ∧
    (∀ ps, ps ≠ a.plan.affectedParameters →
      ({ a with plan := { a.plan with affectedParameters := ps } } : ApprovedChangePlan).verifyIntegrity
        = false) ∧
    (∀ t, t ≠ a.plan.createdAt →
      ({ a with plan := { a.plan with createdAt := t } } : ApprovedChangePlan).verifyIntegrity
        = false) := by
  refine ⟨?_, ?_, ?_, ?_, ?_, ?_⟩
  · intro b
    unfold ApprovedChangePlan.verifyIntegrity
    exact decide_eq_true_iff
  · intro i hi
    unfold ApprovedChangePlan.verifyIntegrity
    rw [decide_eq_false_iff_not]
    intro heq
    exact hi (by
      have := congrArg PlanChecksum.planId (heq.trans h.symm)
      simpa [calculateChecksum] using this)
  · intro d hd
    unfold ApprovedChangePlan.verifyIntegrity
    rw [decide_eq_false_iff_not]
    intro heq
    exact hd (by
      have := congrArg PlanChecksum.description (heq.trans h.symm)
      simpa [calculateChecksum] using this)
  · intro s hs
    unfold ApprovedChangePlan.verifyIntegrity
    rw [decide_eq_false_iff_not]
    intro heq
    refine hs (ChangePlanScope.value_injective _ _ ?_)
    have := congrArg PlanChecksum.scopeValue (heq.trans h.symm)
    simpa [calculateChecksum] using this
  · intro ps hps
    unfold ApprovedChangePlan.verifyIntegrity
    rw [decide_eq_false_iff_not]
    intro heq
    exact hps (by
      have := congrArg PlanChecksum.affectedParameters (heq.trans h.symm)
      simpa [calculateChecksum] using this)
  · intro t ht
    unfold ApprovedChangePlan.verifyIntegrity
    rw [decide_eq_false_iff_not]
    intro heq
    exact ht (by
      have := congrArg PlanChecksum.createdAt (heq.trans h.symm)
      simpa [calculateChecksum] using this)

/-- C3 witness: the sample approval passes integrity, and each single-field
mutation of its plan fails it. -/
theorem verify_integrity_detects_mutation_c3_witness :
    sampleApproved.verifyIntegrity = true ∧
    ({ sampleApproved with
        plan := { samplePlan with id := "plan_other" } } : ApprovedChangePlan).verifyIntegrity
      = false ∧
    ({ sampleApproved with
        plan := { samplePlan with description := "tampered" } } : ApprovedChangePlan).verifyIntegrity
      = false ∧
    ({ sampleApproved with
        plan := { samplePlan with scope := ChangePlanScope.LOGIC } } : ApprovedChangePlan).verifyIntegrity
      = false ∧
    ({ sampleApproved with
        plan := { samplePlan with affectedParameters := [] } } : ApprovedChangePlan).verifyIntegrity
      = false ∧
    ({ sampleApproved with
        plan := { samplePlan with createdAt := 42 } } : ApprovedChangePlan).verifyIntegrity
      = false := by
  have h := verify_integrity_detects_mutation_c3 sampleApproved rfl
  refine ⟨(h.1 sampleApproved).mpr rfl, ?_, ?_, ?_, ?_, ?_⟩
  · exact h.2.1 "plan_other" (by decide)
  · exact h.2.2.1 "tampered" (by decide)
  · exact h.2.2.2.1 ChangePlanScope.LOGIC (by decide)
  · exact h.2.2.2.2.1 [] (by decide)
  · exact h.2.2.2.2.2 42 (by decide)

/-! ## C4 -/

/-- The default configuration written by `SafeExecutor._init_config_if_missing`. -/
def defaultConfig : Config :=
  { parameters :=
      [("confidence_threshold", PyVal.pfloat (7/10)),
       ("max_predictions", PyVal.pint 20),
       ("ttl_short", PyVal.pint 1800),
       ("ttl_medium", PyVal.pint 3600),
       ("ttl_long", PyVal.pint 7200),
       ("api_retry_count", PyVal.pint 3),
       ("api_timeout_ms", PyVal.pint 10000),
       ("ui_fallback_threshold", PyVal.pint 5)]
    modifications := [] }

/-- Helper: a list with an entry that `filterMap` keeps is not sent to `[]`. -/
theorem filterMap_ne_nil_of_mem {α β : Type} (f : α → Option β) {l : List α}
    {a : α} (ha : a ∈ l) (hf : f a ≠ none) : l.filterMap f ≠ [] := by
  cases hfa : f a with
  | none => exact absurd hfa hf
  | some b =>
    intro hnil
    have hb : b ∈ l.filterMap f := List.mem_filterMap.mpr ⟨a, ha, hfa⟩
    rw [hnil] at hb
    exact List.not_mem_nil b hb

/-- Helper: `is_valid` never touches the wrapped plan. -/
theorem isValid_snd_plan (a : ApprovedChangePlan) (now : Int) :
    ((a.isValid now).2).plan = a.plan := by
  unfold ApprovedChangePlan.isValid
  by_cases h1 : a.status = "approved"
  · by_cases h2 : a.expiresAt < now
    · simp [h1, h2]
    · simp [h1, h2]
  · simp [h1]

/-- Helper: a batch containing a whitelist violation fails `validate_batch`. -/
theorem validateBatch_false_of_violation (params : List (String × PyVal))
    (p : String × PyVal) (hp : p ∈ params)
    (hv : ConfigValidator.validate p.1 p.2 ≠ none) :
    (ConfigValidator.validateBatch params).1 = false := by
  unfold ConfigValidator.validateBatch
  rw [decide_eq_false_iff_not]
  intro hlen
  refine filterMap_ne_nil_of_mem _ hp ?_ (List.length_eq_zero.mp hlen)
  cases hval : ConfigValidator.validate p.1 p.2 with
  | none => exact absurd hval hv
  | some e => simp [hval]

/-- Helper: `applyParams` succeeds only when the whole batch validates. -/
theorem applyParams_success_batch (approved : ApprovedChangePlan)
    (params : List (String × PyVal)) (config : Config) (now : Int)
    (h : (SafeExecutor.applyParams approved params config now).success = true) :
    (ConfigValidator.validateBatch params).1 = true := by
  unfold SafeExecutor.applyParams at h
  by_cases h1 : params.isEmpty
  · simp [h1] at h
  · by_cases h2 : (ConfigValidator.validateBatch params).1 = true
    · exact h2
    · have h2' : (ConfigValidator.validateBatch params).1 = false :=
        Bool.eq_false_iff.mpr h2
      simp [h1, h2'] at h

/-- C4: a parameter batch containing any whitelist violation (unknown name,
wrong type, or value outside the allowed range) makes the application step of
`SafeExecutor.apply` fail with the configuration left exactly as it was, and
`SafeExecutor.apply` can only succeed when the batch extracted from the plan
passes the whitelist in full. -/
theorem whitelist_violation_all_or_nothing_c4 (approved : ApprovedChangePlan)
    (params : List (String × PyVal)) (config : Config) (now : Int)
    (h : ∃ p ∈ params, ConfigValidator.validate p.1 p.2 ≠ none) :
    (SafeExecutor.applyParams approved params config now).success = false ∧
    (SafeExecutor.applyParams approved params config now).config = config ∧
    ∀ (a : ApprovedChangePlan) (c : Config) (n : Int),
      (SafeExecutor.apply a c n).success = true →
      (ConfigValidator.validateBatch (extractParameters a.plan)).1 = true := by
  obtain ⟨p, hp, hv⟩ := h
  have hbatch := validateBatch_false_of_violation params p hp hv
  have hne : params.isEmpty = false := by
    cases params with
    | nil => exact absurd hp (List.not_mem_nil p)
    | cons q l => rfl
  refine ⟨?_, ?_, ?_⟩
  · simp [SafeExecutor.applyParams, hne, hbatch]
  · simp [SafeExecutor.applyParams, hne, hbatch]
  · intro a c n hsucc
    unfold SafeExecutor.apply at hsucc
    simp only [ne_eq] at hsucc
    split at hsucc
    · simp at hsucc
    · split at hsucc
      · simp at hsucc
      · split at hsucc
        · simp at hsucc
        · split at hsucc
          · simp at hsucc
          · rw [isValid_snd_plan a n] at hsucc
            exact applyParams_success_batch _ _ _ _ hsucc

/-- C4 witness: a batch setting `confidence_threshold` to 0.95 (above the
whitelisted maximum 0.90) is rejected wholesale and the default configuration
survives unchanged. -/
theorem whitelist_violation_all_or_nothing_c4_witness :
    (SafeExecutor.applyParams sampleApproved
      [("confidence_threshold", PyVal.pfloat (95/100))] defaultConfig 0).success
      = false ∧
    (SafeExecutor.applyParams sampleApproved
      [("confidence_threshold", PyVal.pfloat (95/100))] defaultConfig 0).config
      = defaultConfig := by
  have h := whitelist_violation_all_or_nothing_c4 sampleApproved
    [("confidence_threshold", PyVal.pfloat (95/100))] defaultConfig 0
    ⟨("confidence_threshold", PyVal.pfloat (95/100)), List.mem_cons_self _ _, by
      norm_num [ConfigValidator.validate, getSpec, allowedParameters,
        PyVal.typeOf, PyVal.toRat]
      exact Option.some_ne_none _⟩
  exact ⟨h.1, h.2.1⟩

/-! ## C5 -/

/-- C5: whenever the drift report computed for the pre/post baselines is
critical, the verification recommends rollback, whatever the gain figures
were. -/
theorem critical_drift_forces_rollback_c5 (approvedPlan : ApprovedChangePlan)
    (expectedGain pre post actual : List (String × Rat))
    (h : (DriftDetector.detectDrift 5 pre post).2.driftLevel = "critical") :
    (ExecutionVerifier.verifyExecution approvedPlan expectedGain pre post
      actual).rollbackRecommended = true := by
  unfold ExecutionVerifier.verifyExecution
  by_cases hi : approvedPlan.verifyIntegrity = true
  · simp [hi, h]
  · simp [Bool.eq_false_iff.mpr hi]

/-- C5 witness: metric `m` moves from baseline 0 to 5, which the detector
reports as critical drift (100% by the zero-baseline convention), and the
verification of that cycle recommends rollback. -/
theorem critical_drift_forces_rollback_c5_witness :
    (DriftDetector.detectDrift 5 [("m", 0)] [("m", 5)]).2.driftLevel
      = "critical" ∧
    (ExecutionVerifier.verifyExecution sampleApproved [("m", 1)] [("m", 0)]
      [("m", 5)] [("m", 2)]).rollbackRecommended = true := by
  have h : (DriftDetector.detectDrift 5 [("m", 0)] [("m", 5)]).2.driftLevel
      = "critical" := by
    norm_num [DriftDetector.detectDrift, driftPct, List.filterMap, List.lookup,
      List.filter]
  exact ⟨h, critical_drift_forces_rollback_c5 sampleApproved [("m", 1)]
    [("m", 0)] [("m", 5)] [("m", 2)] h⟩

/-! ## C6 -/

/-- Helper: `ExpectedGainValidator.validate` can only report a valid result
when the averaged gain is non-negative. -/
theorem egv_nonneg_of_isValid (eg act : List (String × Rat))
    (h : (ExpectedGainValidator.validate eg act).isValid = true) :
    0 ≤ (ExpectedGainValidator.validate eg act).gainPercentage := by
  unfold ExpectedGainValidator.validate at h ⊢
  by_cases h1 : (eg.isEmpty || act.isEmpty) = true
  · simp [h1] at h
  · by_cases h2 : (eg.filterMap (gainContribution act)).isEmpty = true
    · simp [Bool.eq_false_iff.mpr h1, h2] at h
    · simp [Bool.eq_false_iff.mpr h1, Bool.eq_false_iff.mpr h2] at h ⊢
      exact h.2

/-- C6: any verification whose gain validation reports a negative gain
percentage recommends rollback and carries the "negative" status. -/
theorem negative_gain_forces_rollback_c6 (approvedPlan : ApprovedChangePlan)
    (expectedGain pre post actual : List (String × Rat)) (gv : GainValidation)
    (h1 : (ExecutionVerifier.verifyExecution approvedPlan expectedGain pre post
      actual).gainValidation = some gv)
    (h2 : gv.gainPercentage < 0) :
    (ExecutionVerifier.verifyExecution approvedPlan expectedGain pre post
      actual).rollbackRecommended = true ∧
    (ExecutionVerifier.verifyExecution approvedPlan expectedGain pre post
      actual).status = "negative" := by
  unfold ExecutionVerifier.verifyExecution at h1 ⊢
  by_cases hi : approvedPlan.verifyIntegrity = true
  · simp only [hi, Bool.not_true, Bool.false_eq_true, if_false,
      Option.some.injEq] at h1
    rw [← h1] at h2
    have hnv : (ExpectedGainValidator.validate expectedGain actual).isValid
        = false := by
      by_cases hval : (ExpectedGainValidator.validate expectedGain actual).isValid
          = true
      · exact absurd (egv_nonneg_of_isValid expectedGain actual hval)
          (not_le.mpr h2)
      · exact Bool.eq_false_iff.mpr hval
    simp [hi, hnv, h2]
  · simp [Bool.eq_false_iff.mpr hi] at h1

/-- C6 witness: expected gain −10 with actual −5 yields the (small but
positive delta, negative percentage) gain of −50%, and the verification
recommends rollback with status "negative". -/
theorem negative_gain_forces_rollback_c6_witness :
    (ExecutionVerifier.verifyExecution sampleApproved [("m", -10)] [("p", 1)]
      [("p", 1)] [("m", -5)]).gainValidation
      = some { isValid := false, gainPercentage := -50 } ∧
    (-50 : Rat) < 0 ∧
    (ExecutionVerifier.verifyExecution sampleApproved [("m", -10)] [("p", 1)]
      [("p", 1)] [("m", -5)]).rollbackRecommended = true ∧
    (ExecutionVerifier.verifyExecution sampleApproved [("m", -10)] [("p", 1)]
      [("p", 1)] [("m", -5)]).status = "negative" := by
  have h1 : (ExecutionVerifier.verifyExecution sampleApproved [("m", -10)]
      [("p", 1)] [("p", 1)] [("m", -5)]).gainValidation
      = some { isValid := false, gainPercentage := -50 } := by
    norm_num [ExecutionVerifier.verifyExecution,
      show sampleApproved.verifyIntegrity = true from rfl,
      ExpectedGainValidator.validate, gainContribution, List.filterMap,
      List.lookup, GainValidation.mk.injEq]
  have h2 : (-50 : Rat) < 0 := by norm_num
  have h := negative_gain_forces_rollback_c6 sampleApproved [("m", -10)]
    [("p", 1)] [("p", 1)] [("m", -5)] { isValid := false, gainPercentage := -50 }
    h1 h2
  exact ⟨h1, h2, h.1, h.2⟩

/-! ## C10 -/

/-- C10 counterexample: with expected value −10 and actual value −5 the
delta is +5 (so it is averaged in), but the percentage 5 / (−10) · 100 = −50
is negative, so `ExpectedGainValidator.validate` returns a negative
gain percentage. -/
theorem gain_can_be_negative_c10_counterexample :
    (ExpectedGainValidator.validate [("m", -10)] [("m", -5)]).gainPercentage
      < 0 := by
  norm_num [ExpectedGainValidator.validate, gainContribution, List.filterMap,
    List.lookup]

/-- C10 (amended): the averaged gains are taken only over per-metric deltas
that are zero or positive, so whenever every expected value is non-negative
the returned gain percentage is non-negative; a negative expected value can
still produce a negative gain percentage. -/
theorem gain_nonneg_for_nonneg_expected_c10 (eg act : List (String × Rat))
    (h : ∀ p ∈ eg, 0 ≤ p.2) :
    0 ≤ (ExpectedGainValidator.validate eg act).gainPercentage := by
  unfold ExpectedGainValidator.validate
  by_cases h1 : (eg.isEmpty || act.isEmpty) = true
  · simp [h1]
  · by_cases h2 : (eg.filterMap (gainContribution act)).isEmpty = true
    · simp [Bool.eq_false_iff.mpr h1, h2]
    · simp only [Bool.eq_false_iff.mpr h1, Bool.eq_false_iff.mpr h2,
        Bool.false_eq_true, if_false]
      apply div_nonneg
      · apply List.sum_nonneg
        intro g hg
        obtain ⟨p, hp, hgp⟩ := List.mem_filterMap.mp hg
        unfold gainContribution at hgp
        cases ha : act.lookup p.1 with
        | none => rw [ha] at hgp; cases hgp
        | some actual =>
          rw [ha] at hgp
          dsimp only at hgp
          by_cases hd : 0 < actual - p.2
          · rw [if_pos hd] at hgp
            by_cases hz : p.2 ≠ 0
            · rw [if_pos hz] at hgp
              have hval := Option.some.inj hgp
              have hp2 : 0 < p.2 := lt_of_le_of_ne (h p hp) (Ne.symm hz)
              rw [← hval]
              exact le_of_lt (mul_pos (div_pos hd hp2) (by norm_num))
            · rw [if_neg hz] at hgp
              rw [← Option.some.inj hgp]
              norm_num
          · rw [if_neg hd] at hgp
            by_cases he : actual - p.2 = 0
            · rw [if_pos he] at hgp
              rw [← Option.some.inj hgp]
            · rw [if_neg he] at hgp
              cases hgp
      · exact Nat.cast_nonneg _

/-- C10 amended witness: all-non-negative expected values (10 against an
actual of 12) yield a non-negative gain percentage. -/
theorem gain_nonneg_for_nonneg_expected_c10_witness :
    (∀ p ∈ [(("m", 10) : String × Rat)], 0 ≤ p.2) ∧
    0 ≤ (ExpectedGainValidator.validate [("m", 10)] [("m", 12)]).gainPercentage := by
  have h : ∀ p ∈ [(("m", 10) : String × Rat)], 0 ≤ p.2 := by
    intro p hp
    rw [List.mem_singleton.mp hp]
    norm_num
  exact ⟨h, gain_nonneg_for_nonneg_expected_c10 [("m", 10)] [("m", 12)] h⟩

/-! ## C7 -/

/-- C7 counterexample: a HIGH-severity risk signal on the score-drop
attractor matches no branch of `_generate_control_signals`, so no control
signal at all is produced — in particular no LOG_ONLY signal, contrary to
the claim that every unlisted (severity, attractor) combination yields
LOG_ONLY. -/
theorem severity_table_c7_counterexample :
    generateControlSignals 0
      [{ attractor := RiskAttractor.API_SCORE_DROP, level := RiskLevel.HIGH
         message := "API-first score: 40.0% (baseline: 90.0%)" }] = [] := by
  rfl

/-- C7 (amended): the six listed (severity, attractor) pairs map to exactly
the listed signal types; LOW severity always yields LOG_ONLY; HIGH or MEDIUM
severity on any attractor outside its three listed cases yields no control
signal at all. -/
theorem severity_table_c7_amended (now : Int) (msg : String) :
    ((generateControlSignals now
        [{ attractor := RiskAttractor.DEMO_ONLY_MODE, level := RiskLevel.HIGH
           message := msg }]).map ControlSignal.signalType
      = [ControlSignalType.HARD_LIMIT]) ∧
    ((generateControlSignals now
        [{ attractor := RiskAttractor.SUPABASE_DOWN, level := RiskLevel.HIGH
           message := msg }]).map ControlSignal.signalType
      = [ControlSignalType.SOFT_LIMIT]) ∧
    ((generateControlSignals now
        [{ attractor := RiskAttractor.PLAYWRIGHT_INIT_FAIL, level := RiskLevel.HIGH
           message := msg }]).map ControlSignal.signalType
      = [ControlSignalType.MODE_DOWNGRADE]) ∧
    ((generateControlSignals now
        [{ attractor := RiskAttractor.API_SCORE_DROP, level := RiskLevel.MEDIUM
           message := msg }]).map ControlSignal.signalType
      = [ControlSignalType.EXECUTION_GUARD]) ∧
    ((generateControlSignals now
        [{ attractor := RiskAttractor.HIGH_UI_FALLBACK, level := RiskLevel.MEDIUM
           message := msg }]).map ControlSignal.signalType
      = [ControlSignalType.SOFT_LIMIT]) ∧
    ((generateControlSignals now
        [{ attractor := RiskAttractor.RUNTIME_SPIKE, level := RiskLevel.MEDIUM
           message := msg }]).map ControlSignal.signalType
      = [ControlSignalType.EARLY_EXIT]) ∧
    (∀ a : RiskAttractor,
      (generateControlSignals now
        [{ attractor := a, level := RiskLevel.LOW, message := msg }]).map
          ControlSignal.signalType = [ControlSignalType.LOG_ONLY]) ∧
    (∀ a : RiskAttractor,
      a ≠ RiskAttractor.DEMO_ONLY_MODE → a ≠ RiskAttractor.SUPABASE_DOWN →
      a ≠ RiskAttractor.PLAYWRIGHT_INIT_FAIL →
      generateControlSignals now
        [{ attractor := a, level := RiskLevel.HIGH, message := msg }] = []) ∧
    (∀ a : RiskAttractor,
      a ≠ RiskAttractor.API_SCORE_DROP → a ≠ RiskAttractor.HIGH_UI_FALLBACK →
      a ≠ RiskAttractor.RUNTIME_SPIKE →
      generateControlSignals now
        [{ attractor := a, level := RiskLevel.MEDIUM, message := msg }] = []) := by
  refine ⟨rfl, rfl, rfl, rfl, rfl, rfl, ?_, ?_, ?_⟩
  · intro a
    cases a <;> rfl
  · intro a h1 h2 h3
    cases a <;>
      first
        | exact absurd rfl h1
        | exact absurd rfl h2
        | exact absurd rfl h3
        | rfl
  · intro a h1 h2 h3
    cases a <;>
      first
        | exact absurd rfl h1
        | exact absurd rfl h2
        | exact absurd rfl h3
        | rfl

/-- C7 amended witness: the table at a concrete time and message, plus the
two unmatched-combination clauses at concrete attractors. -/
theorem severity_table_c7_amended_witness :
    ((generateControlSignals 0
        [{ attractor := RiskAttractor.RUNTIME_SPIKE, level := RiskLevel.MEDIUM
           message := "CI runtime spiked" }]).map ControlSignal.signalType
      = [ControlSignalType.EARLY_EXIT]) ∧
    ((generateControlSignals 0
        [{ attractor := RiskAttractor.SMOKE_FAILURES, level := RiskLevel.LOW
           message := "smoke" }]).map ControlSignal.signalType
      = [ControlSignalType.LOG_ONLY]) ∧
    generateControlSignals 0
      [{ attractor := RiskAttractor.ML_LOAD_SLOW, level := RiskLevel.HIGH
         message := "ML slow" }] = [] := by
  have h1 := severity_table_c7_amended 0 "CI runtime spiked"
  have h2 := severity_table_c7_amended 0 "smoke"
  have h3 := severity_table_c7_amended 0 "ML slow"
  exact ⟨h1.2.2.2.2.2.1,
    h2.2.2.2.2.2.2.1 RiskAttractor.SMOKE_FAILURES,
    h3.2.2.2.2.2.2.2.1 RiskAttractor.ML_LOAD_SLOW (by decide) (by decide)
      (by decide)⟩

/-! ## C8 -/

/-- A HIGH-severity demo-only risk signal. -/
def demoRisk : RiskSignal :=
  { attractor := RiskAttractor.DEMO_ONLY_MODE
    level := RiskLevel.HIGH
    message := "Fallback to demo events detected" }

/-- Controller state after one `evaluate_and_apply` cycle at time 0 with the
demo-only risk firing: a HARD_LIMIT signal (TTL 7200 s) is active and the
controls have force-demo and block-live set. -/
def c8StateAfterSignal : ControllerState :=
  evaluateAndApply ControllerState.init 0 [demoRisk]

/-- Controller state after a further cycle at time 10000 (past the signal's
expiry) with no risks firing. -/
def c8StateAfterExpiry : ControllerState :=
  evaluateAndApply c8StateAfterSignal 10000 []

/-- C8 counterexample: the HARD_LIMIT signal expires and is cleaned up
(`active_signals` becomes empty), yet the force-demo and block-live flags it
set still appear in `ExecutionControls` — the snapshot is not rebuilt from
the currently-active signals. -/
theorem controls_not_rebuilt_c8_counterexample :
    (c8StateAfterSignal.activeSignals.map ControlSignal.signalType
      = [ControlSignalType.HARD_LIMIT]) ∧
    c8StateAfterSignal.executionControls.forceDemoMode = true ∧
    c8StateAfterExpiry.activeSignals = [] ∧
    c8StateAfterExpiry.executionControls.forceDemoMode = true ∧
    c8StateAfterExpiry.executionControls.blockLiveMode = true := by
  refine ⟨rfl, rfl, ?_, rfl, rfl⟩
  rfl

/-- Pointwise ordering on the boolean control flags: every flag set in the
first snapshot is set in the second. -/
def flagsLe (e1 e2 : ExecutionControls) : Prop :=
  (e1.forceDemoMode = true → e2.forceDemoMode = true) ∧
  (e1.blockLiveMode = true → e2.blockLiveMode = true) ∧
  (e1.disableUiFallback = true → e2.disableUiFallback = true) ∧
  (e1.ciEarlyExit = true → e2.ciEarlyExit = true)

/-- Helper: `ExecutionControls.apply_signal` only ever sets flags. -/
theorem applySignal_flagsLe (ec : ExecutionControls) (s : ControlSignal)
    (now : Int) : flagsLe ec (ec.applySignal s now) := by
  refine ⟨?_, ?_, ?_, ?_⟩ <;>
    · intro h
      unfold ExecutionControls.applySignal
      repeat' split
      all_goals simp_all

/-- Helper: one `_apply_signals` iteration only ever sets flags. -/
theorem applyOneSignal_flagsLe (now : Int) (st : ControllerState)
    (s : ControlSignal) :
    flagsLe st.executionControls (applyOneSignal now st s).executionControls := by
  unfold applyOneSignal
  cases hf : findSignal st.activeSignals s.attractor s.signalType with
  | none => exact applySignal_flagsLe _ _ _
  | some existing =>
    dsimp only
    split
    · exact ⟨fun h => h, fun h => h, fun h => h, fun h => h⟩
    · exact applySignal_flagsLe _ _ _

/-- Helper: `_apply_signals` only ever sets flags. -/
theorem applySignals_flagsLe (sigs : List ControlSignal) (st : ControllerState)
    (now : Int) :
    flagsLe st.executionControls (applySignals st sigs now).executionControls := by
  induction sigs generalizing st with
  | nil => exact ⟨fun h => h, fun h => h, fun h => h, fun h => h⟩
  | cons s rest ih =>
    have h1 := applyOneSignal_flagsLe now st s
    have h2 := ih (applyOneSignal now st s)
    exact ⟨fun h => h2.1 (h1.1 h),
           fun h => h2.2.1 (h1.2.1 h),
           fun h => h2.2.2.1 (h1.2.2.1 h),
           fun h => h2.2.2.2 (h1.2.2.2 h)⟩

/-- C8 (amended): after an `evaluate_and_apply` cycle the active-signal list
contains no signal that is expired at the cycle time, but `ExecutionControls`
is folded incrementally over newly-activated signals and never rebuilt or
reset: every flag set before the cycle — including flags set by signals that
have since expired and been cleaned up — is still set after it. -/
theorem controls_incremental_c8_amended (st : ControllerState) (now : Int)
    (risks : List RiskSignal) :
    (∀ s ∈ (evaluateAndApply st now risks).activeSignals,
      s.isExpired now = false) ∧
    flagsLe st.executionControls
      (evaluateAndApply st now risks).executionControls := by
  constructor
  · intro s hs
    unfold evaluateAndApply cleanupExpiredSignals at hs
    have := (List.mem_filter.mp hs).2
    simpa using this
  · have h1 := applySignals_flagsLe (generateControlSignals now risks) st now
    have h2 : (evaluateAndApply st now risks).executionControls
        = (applySignals st (generateControlSignals now risks) now).executionControls := rfl
    rw [h2]
    exact h1

/-- C8 amended witness: starting from the post-expiry counterexample state,
a further cycle at time 20000 keeps the active-signal list free of expired
signals and keeps the force-demo flag set. -/
theorem controls_incremental_c8_amended_witness :
    (∀ s ∈ (evaluateAndApply c8StateAfterExpiry 20000 []).activeSignals,
      s.isExpired 20000 = false) ∧
    (evaluateAndApply c8StateAfterExpiry 20000 []).executionControls.forceDemoMode
      = true := by
  have h := controls_incremental_c8_amended c8StateAfterExpiry 20000 []
  exact ⟨h.1, h.2.1 rfl⟩

/-! ## C9 -/

/-- A concrete verification record with a no-effect outcome. -/
def sampleVerification : Verification :=
  { planId := samplePlan.id
    status := "no_effect"
    integrityCheck := true
    gainValidation := some { isValid := false, gainPercentage := 0 }
    driftDetection := none
    rollbackRecommended := false
    rollbackJustification := none
    actualMetrics := []
    preChangeBaseline := [("m", 2)]
    postChangeBaseline := [("m", 3)] }

/-- C9: `enrich_baseline` returns false and records nothing for every
outcome in {no_effect, negative, failed, rolled_back}, and a processed cycle
enriches the baseline exactly when the derived outcome is success or partial
success. -/
theorem enrichment_only_on_success_c9 :
    (∀ (outcome : PlanOutcome) (post collector : List (String × Rat)),
      (outcome = PlanOutcome.NO_EFFECT ∨ outcome = PlanOutcome.NEGATIVE_EFFECT ∨
       outcome = PlanOutcome.VERIFICATION_FAILED ∨ outcome = PlanOutcome.ROLLED_BACK) →
      BaselineEnricher.enrichBaseline outcome post collector = (false, collector)) ∧
    (∀ (v : Verification) (collector : List (String × Rat)),
      (CycleOrchestrator.processCycle v collector).enriched = true ↔
        ((CycleOrchestrator.processCycle v collector).outcome = PlanOutcome.SUCCESS ∨
         (CycleOrchestrator.processCycle v collector).outcome
           = PlanOutcome.PARTIAL_SUCCESS)) := by
  constructor
  · intro outcome post collector h
    rcases h with h | h | h | h <;> subst h <;> rfl
  · intro v collector
    have ho : (CycleOrchestrator.processCycle v collector).outcome
        = determineOutcome v.status v.rollbackRecommended := rfl
    cases hd : determineOutcome v.status v.rollbackRecommended <;>
      simp [CycleOrchestrator.processCycle, BaselineEnricher.enrichBaseline, hd]

/-- C9 witness: a rolled-back outcome leaves the collector untouched, and
the sample no-effect verification does not enrich. -/
theorem enrichment_only_on_success_c9_witness :
    BaselineEnricher.enrichBaseline PlanOutcome.ROLLED_BACK [("m", 3)] [("x", 1)]
      = (false, [("x", 1)]) ∧
    (CycleOrchestrator.processCycle sampleVerification [("x", 1)]).enriched
      = false := by
  have h := enrichment_only_on_success_c9
  constructor
  · exact h.1 PlanOutcome.ROLLED_BACK [("m", 3)] [("x", 1)]
      (Or.inr (Or.inr (Or.inr rfl)))
  · have hiff := h.2 sampleVerification [("x", 1)]
    rw [Bool.eq_false_iff]
    intro hE
    rcases hiff.mp hE with hs | hs <;>
      simp [CycleOrchestrator.processCycle, determineOutcome,
        sampleVerification] at hs

end GrailAgent
